import Mathlib

/-!
Shallow embedding of the pantalaimon UI bridge (src/pantalaimon/ui.py) and
configuration loader (src/pantalaimon/config.py), together with theorems
checking the natural-language specification against it.

Python dicts are modelled as association lists (insertion-ordered, unique
keys, as `dict` guarantees); queues are modelled as lists with enqueue at
the back and dequeue at the front; methods become explicit state-passing
functions.
-/

namespace Pantalaimon

/-- A D-Bus device record (`a\x7bss\x7d`): a dictionary of string metadata. -/
abbrev Device := List (String × String)

/-- `device_id -> Device`, one user's devices. -/
abbrev DeviceDict := List (String × Device)

/-- `user_id -> DeviceDict`, one pan user's device store. -/
abbrev UserDeviceDict := List (String × DeviceDict)

/-- `pan_user -> UserDeviceDict`: the device read cache `Devices.device_list`,
as returned by `PanStore.load_all_devices`. -/
abbrev DeviceList := List (String × UserDeviceDict)

/-- `IdCounter` from ui.py: holds the next message id to hand out. -/
structure IdCounter where
  msg_id : Nat
deriving DecidableEq, Repr

/-- `IdCounter.message_id` property: returns the current value and
post-increments the stored counter. -/
def IdCounter.message_id (c : IdCounter) : Nat × IdCounter :=
  (c.msg_id, ⟨c.msg_id + 1⟩)

/-- Modelled from the spec: the command classes of
`pantalaimon/thread_messages.py` (not under src/), as constructed by the
`Control` and `Devices` methods in ui.py — a tagged value carrying the
assigned correlation id and the call's arguments unchanged. -/
inductive Message where
  | exportKeysMessage (message_id : Nat) (pan_user file_path passphrase : String)
  | importKeysMessage (message_id : Nat) (pan_user file_path passphrase : String)
  | deviceVerifyMessage (message_id : Nat) (pan_user user_id device_id : String)
  | deviceUnverifyMessage (message_id : Nat) (pan_user user_id device_id : String)
  | startSasMessage (message_id : Nat) (pan_user user_id device_id : String)
  | cancelSasMessage (message_id : Nat) (pan_user user_id device_id : String)
  | confirmSasMessage (message_id : Nat) (pan_user user_id device_id : String)
  | acceptSasMessage (message_id : Nat) (pan_user user_id device_id : String)
deriving DecidableEq, Repr

/-- Modelled from the spec: the event classes of
`pantalaimon/thread_messages.py` (not under src/) that the daemon core puts
on the receive queue — device-list-changed, the four verification
transition events (invited / string-ready / cancelled / done) and the
command response.  `unknownEvent` stands for an event whose tag matches
none of the types `message_callback` tests for. -/
inductive Event where
  | updateDevicesMessage
  | inviteSasSignal (pan_user user_id device_id transaction_id : String)
  | showSasSignal (pan_user user_id device_id transaction_id : String)
      (emoji : List (String × String))
  | cancelSasSignal (pan_user user_id device_id transaction_id reason code : String)
  | sasDoneSignal (pan_user user_id device_id transaction_id : String)
  | daemonResponse (message_id : Nat) (pan_user code message : String)
  | unknownEvent
deriving DecidableEq, Repr

/-- The outward D-Bus notifications the bridge can emit (the `signal()`
attributes of `Control` and `Devices` in ui.py). -/
inductive DBusSignal where
  | verificationInvite (pan_user user_id device_id transaction_id : String)
  | verificationString (pan_user user_id device_id transaction_id : String)
      (emoji : List (String × String))
  | verificationCancel (pan_user user_id device_id transaction_id reason code : String)
  | verificationDone (pan_user user_id device_id transaction_id : String)
  | response (id : Nat) (pan_user : String) (code message : String)
deriving DecidableEq, Repr

/-- The mutable state shared by the two surfaces: the one `IdCounter`
created in `GlibT.__attrs_post_init__`, the send queue handed to both
`Control` and `Devices`, and the `Devices.device_list` cache. -/
structure BridgeState where
  id_counter : IdCounter
  send_queue : List Message
  device_list : DeviceList
deriving Repr

namespace Control

/-- `Control.ExportKeys`: builds an `ExportKeysMessage` with a fresh id,
enqueues it, returns the message's id. -/
def ExportKeys (st : BridgeState) (pan_user filepath passphrase : String) :
    Nat × BridgeState :=
  let (mid, ctr) := st.id_counter.message_id
  let message := Message.exportKeysMessage mid pan_user filepath passphrase
  (mid, { st with id_counter := ctr, send_queue := st.send_queue ++ [message] })

/-- `Control.ImportKeys`: symmetric to `ExportKeys`. -/
def ImportKeys (st : BridgeState) (pan_user filepath passphrase : String) :
    Nat × BridgeState :=
  let (mid, ctr) := st.id_counter.message_id
  let message := Message.importKeysMessage mid pan_user filepath passphrase
  (mid, { st with id_counter := ctr, send_queue := st.send_queue ++ [message] })

end Control

/-- A sequence of device records, as returned by the listing methods. -/
abbrev DeviceSeq := List Device

namespace Devices

/-- `Devices.List`: look the pan user up in the cache
(`device_list.get(pan_user, None)`); a missing or falsy (empty) store
yields `[]`, otherwise the devices of all of the store's users are
flattened into one list. -/
def List (st : BridgeState) (pan_user : String) : DeviceSeq :=
  match st.device_list.lookup pan_user with
  | none => []
  | some device_store =>
    if device_store.isEmpty then []
    else device_store.flatMap fun user_devices => user_devices.2.map Prod.snd

/-- `Devices.ListUserDevices`: as `List` but scoped to one user; a missing
or falsy store or user entry yields `[]`, otherwise the `.values()` of the
user's device dict. -/
def ListUserDevices (st : BridgeState) (pan_user user_id : String) : DeviceSeq :=
  match st.device_list.lookup pan_user with
  | none => []
  | some device_store =>
    if device_store.isEmpty then []
    else
      match device_store.lookup user_id with
      | none => []
      | some device_dict =>
        if device_dict.isEmpty then [] else device_dict.map Prod.snd

/-- `Devices.Verify`: enqueue a `DeviceVerifyMessage` with a fresh id. -/
def Verify (st : BridgeState) (pan_user user_id device_id : String) :
    Nat × BridgeState :=
  let (mid, ctr) := st.id_counter.message_id
  let message := Message.deviceVerifyMessage mid pan_user user_id device_id
  (mid, { st with id_counter := ctr, send_queue := st.send_queue ++ [message] })

/-- `Devices.UnVerify`: enqueue a `DeviceUnverifyMessage` with a fresh id. -/
def UnVerify (st : BridgeState) (pan_user user_id device_id : String) :
    Nat × BridgeState :=
  let (mid, ctr) := st.id_counter.message_id
  let message := Message.deviceUnverifyMessage mid pan_user user_id device_id
  (mid, { st with id_counter := ctr, send_queue := st.send_queue ++ [message] })

/-- `Devices.StartKeyVerification`: enqueue a `StartSasMessage`. -/
def StartKeyVerification (st : BridgeState) (pan_user user_id device_id : String) :
    Nat × BridgeState :=
  let (mid, ctr) := st.id_counter.message_id
  let message := Message.startSasMessage mid pan_user user_id device_id
  (mid, { st with id_counter := ctr, send_queue := st.send_queue ++ [message] })

/-- `Devices.CancelKeyVerification`: enqueue a `CancelSasMessage`. -/
def CancelKeyVerification (st : BridgeState) (pan_user user_id device_id : String) :
    Nat × BridgeState :=
  let (mid, ctr) := st.id_counter.message_id
  let message := Message.cancelSasMessage mid pan_user user_id device_id
  (mid, { st with id_counter := ctr, send_queue := st.send_queue ++ [message] })

/-- `Devices.ConfirmKeyVerification`: enqueue a `ConfirmSasMessage`. -/
def ConfirmKeyVerification (st : BridgeState) (pan_user user_id device_id : String) :
    Nat × BridgeState :=
  let (mid, ctr) := st.id_counter.message_id
  let message := Message.confirmSasMessage mid pan_user user_id device_id
  (mid, { st with id_counter := ctr, send_queue := st.send_queue ++ [message] })

/-- `Devices.AcceptKeyVerification`: enqueue an `AcceptSasMessage`. -/
def AcceptKeyVerification (st : BridgeState) (pan_user user_id device_id : String) :
    Nat × BridgeState :=
  let (mid, ctr) := st.id_counter.message_id
  let message := Message.acceptSasMessage mid pan_user user_id device_id
  (mid, { st with id_counter := ctr, send_queue := st.send_queue ++ [message] })

/-- `Devices.update_devices`: wholesale replacement of the cache with the
store's `load_all_devices()` snapshot. -/
def update_devices (st : BridgeState) (store : DeviceList) : BridgeState :=
  { st with device_list := store }

end Devices

/-- The state of the `GlibT` thread: the inbound event queue
(`receive_queue`), the current `PanStore.load_all_devices()` snapshot that
`update_devices` would load, and the state shared by the two published
surfaces. -/
structure GlibState where
  receive_queue : List Event
  store : DeviceList
  bridge : BridgeState
deriving Repr

namespace GlibT

/-- The `if isinstance(...)` dispatch chain in the body of
`GlibT.message_callback`, applied to one dequeued message: returns the
updated bridge state and the outward signals emitted.  There is no
`isinstance` branch for a SAS cancel event (ui.py never emits the declared
`VerificationCancel` signal), so such a message — like any unrecognized
message — falls through the chain, changing nothing and emitting nothing. -/
def dispatch (st : BridgeState) (store : DeviceList) (message : Event) :
    BridgeState × List DBusSignal :=
  match message with
  | .updateDevicesMessage => (Devices.update_devices st store, [])
  | .inviteSasSignal p u d t => (st, [.verificationInvite p u d t])
  | .showSasSignal p u d t emoji => (st, [.verificationString p u d t emoji])
  | .sasDoneSignal p u d t => (st, [.verificationDone p u d t])
  | .daemonResponse i p c m => (st, [.response i p c m])
  | _ => (st, [])

/-- `GlibT.message_callback`: one tick of the event dispatch loop.
`get_nowait` on an empty queue raises `Empty` and the callback returns
`True` at once; otherwise the single dequeued message is dispatched,
`task_done` is called, and `True` is returned.  The result is the new
state, the signals emitted during this tick, and the returned boolean. -/
def message_callback (g : GlibState) : GlibState × List DBusSignal × Bool :=
  match g.receive_queue with
  | [] => (g, [], true)
  | message :: rest =>
    let (bridge2, sigs) := dispatch g.bridge g.store message
    ({ g with receive_queue := rest, bridge := bridge2 }, sigs, true)

end GlibT

/-- One command-issuing call on either surface, for reasoning about
sequences of calls on the `Control` and `Devices` objects that share the
one `IdCounter` created in `GlibT.__attrs_post_init__`. -/
inductive Op where
  | exportKeys (pan_user file_path passphrase : String)
  | importKeys (pan_user file_path passphrase : String)
  | verify (pan_user user_id device_id : String)
  | unVerify (pan_user user_id device_id : String)
  | startKeyVerification (pan_user user_id device_id : String)
  | cancelKeyVerification (pan_user user_id device_id : String)
  | acceptKeyVerification (pan_user user_id device_id : String)
  | confirmKeyVerification (pan_user user_id device_id : String)
deriving DecidableEq, Repr

/-- Run one command-issuing call on the shared bridge state. -/
def runOp (st : BridgeState) (op : Op) : Nat × BridgeState :=
  match op with
  | .exportKeys p f w => Control.ExportKeys st p f w
  | .importKeys p f w => Control.ImportKeys st p f w
  | .verify p u d => Devices.Verify st p u d
  | .unVerify p u d => Devices.UnVerify st p u d
  | .startKeyVerification p u d => Devices.StartKeyVerification st p u d
  | .cancelKeyVerification p u d => Devices.CancelKeyVerification st p u d
  | .acceptKeyVerification p u d => Devices.AcceptKeyVerification st p u d
  | .confirmKeyVerification p u d => Devices.ConfirmKeyVerification st p u d

/-- Run a sequence of command-issuing calls, collecting the returned
correlation ids in issuance order. -/
def runOps (st : BridgeState) (ops : List Op) : List Nat × BridgeState :=
  match ops with
  | [] => ([], st)
  | op :: rest =>
    let (i, st1) := runOp st op
    let (is, st2) := runOps st1 rest
    (i :: is, st2)

/-- The logbook log levels `parse_log_level` can return (logbook is an
external library; only which level is returned matters here). -/
inductive LogLevel where
  | info
  | warning
  | error
  | debug
deriving DecidableEq, Repr

/-- Python's `str.lower()`: lowercase every character. -/
def str_lower (s : String) : String :=
  String.mk (s.data.map Char.toLower)

/-- `parse_log_level` from config.py: lowercases the value, maps the four
recognized names to their levels and everything else to WARNING. -/
def parse_log_level (value : String) : LogLevel :=
  let v := str_lower value
  if v = "info" then .info
  else if v = "warning" then .warning
  else if v = "error" then .error
  else if v = "debug" then .debug
  else .warning

/-- `ServerConfig` from config.py (the `homeserver` and `proxy` URLs and
the parsed `listen_address` are kept as strings). -/
structure ServerConfig where
  homeserver : String
  listen_address : String
  listen_port : Nat
  proxy : Option String
  ssl : Bool
deriving DecidableEq, Repr

/-- One non-default (or default) section of the parsed configuration file,
with its option values already run through the section getters: `geturl`
yields `none` when the option is missing, the listen address and port
carry the `getaddress`/`getint` results (defaults applied by the parser). -/
structure ConfigSection where
  name : String
  homeserver : Option String
  listen_address : String
  listen_port : Nat
  ssl : Bool
  proxy : Option String
deriving DecidableEq, Repr

/-- The ways `PanConfig.read` raises `PanConfigError` while walking the
sections: a section without a homeserver, or a listen address/port pair
already seen in an earlier section. -/
inductive PanConfigError where
  | homeserverMissing (section_name : String)
  | duplicateListen (section_name : String)
deriving DecidableEq, Repr

/-- The section loop of `PanConfig.read`: skip the "Default" section,
require a homeserver, reject a listen address/port pair already in
`listen_set`, otherwise record the pair and the built `ServerConfig`. -/
def read_sections (sections : List ConfigSection)
    (listen_set : List (String × Nat)) (servers : List (String × ServerConfig)) :
    Except PanConfigError (List (String × ServerConfig)) :=
  match sections with
  | [] => .ok servers
  | s :: rest =>
    if s.name = "Default" then read_sections rest listen_set servers
    else
      match s.homeserver with
      | none => .error (.homeserverMissing s.name)
      | some hs =>
        let listen_tuple := (s.listen_address, s.listen_port)
        if listen_tuple ∈ listen_set then .error (.duplicateListen s.name)
        else
          read_sections rest (listen_tuple :: listen_set)
            (servers ++ [(s.name, ⟨hs, s.listen_address, s.listen_port, s.proxy, s.ssl⟩)])

namespace PanConfig

/-- `PanConfig.read`, starting from an empty `listen_set` and empty
`servers` dict, over the parsed file's sections in file order. -/
def read (sections : List ConfigSection) :
    Except PanConfigError (List (String × ServerConfig)) :=
  read_sections sections [] []

end PanConfig

/-- The listen address/port pair of a section, as `PanConfig.read` builds
it for the duplicate check. -/
def ConfigSection.listen_tuple (s : ConfigSection) : String × Nat :=
  (s.listen_address, s.listen_port)

/-- The concrete device record used in the spec's scenario for
`ListUserDevices`. -/
def dev1 : Device := [("user_id", "bob"), ("device_id", "DEV1")]

/-- The concrete device cache of the spec's scenario: identity "alice"
has devices \x7b"bob": \x7b"DEV1": ...\x7d\x7d cached. -/
def aliceState : BridgeState :=
  { id_counter := ⟨0⟩
    send_queue := []
    device_list := [("alice", [("bob", [("DEV1", dev1)])])] }

/-- `GlibT.__attrs_post_init__`: one fresh `IdCounter` (starting at 0) is
created and shared by the `Control` and `Devices` surfaces; `Devices`
loads the device cache from the store at construction. -/
def GlibT.attrs_post_init (receive_queue : List Event) (store : DeviceList) :
    GlibState :=
  { receive_queue := receive_queue
    store := store
    bridge := { id_counter := ⟨0⟩, send_queue := [], device_list := store } }

/-- A concrete configuration section for the duplicate-listen scenario. -/
def sectionAlice : ConfigSection :=
  { name := "alice", homeserver := some "https://example.org"
    listen_address := "127.0.0.1", listen_port := 8009
    ssl := true, proxy := none }

/-- A second section with the same listen address/port pair. -/
def sectionBob : ConfigSection :=
  { name := "bob", homeserver := some "https://example.org"
    listen_address := "127.0.0.1", listen_port := 8009
    ssl := true, proxy := none }

/-- A verification-cancelled event, as the daemon core would queue it. -/
def cancelledEvent : Event :=
  Event.cancelSasSignal "alice" "bob" "DEV1" "t1" "Emoji mismatch" "m.mismatched_sas"

/-! ## Theorems -/

/-- `runOp` returns the counter value held before the call. -/
lemma runOp_fst (st : BridgeState) (op : Op) :
    (runOp st op).1 = st.id_counter.msg_id := by
  cases op <;> rfl

/-- `runOp` leaves the shared counter incremented by one. -/
lemma runOp_counter (st : BridgeState) (op : Op) :
    (runOp st op).2.id_counter.msg_id = st.id_counter.msg_id + 1 := by
  cases op <;> rfl

/-- The ids returned by a sequence of surface calls are the consecutive
naturals starting at the shared counter's current value. -/
lemma runOps_ids (st : BridgeState) (ops : List Op) :
    (runOps st ops).1 = List.range' st.id_counter.msg_id ops.length := by
  induction ops generalizing st with
  | nil => rfl
  | cons op rest ih =>
    have hcons : (runOps st (op :: rest)).1
        = (runOp st op).1 :: (runOps (runOp st op).2 rest).1 := rfl
    rw [hcons, runOp_fst, ih, runOp_counter, List.length_cons, List.range'_succ]

/-- C2: for every sequence of command-issuing calls on the `Control` and
`Devices` surfaces sharing one `IdCounter`, the returned correlation ids
are strictly increasing in issuance order (hence each is strictly greater
than every previously returned one) and pairwise distinct. -/
theorem correlation_ids_strictly_increasing (st : BridgeState) (ops : List Op) :
    (runOps st ops).1.Pairwise (· < ·) ∧ (runOps st ops).1.Nodup := by
  rw [runOps_ids]
  refine ⟨List.pairwise_lt_range' _ _, List.nodup_range' _ _⟩

/-- C5: `ExportKeys` and `ImportKeys` each append exactly one command to
the send queue — tagged export respectively import, carrying the pan user,
file path and passphrase unchanged together with the freshly assigned id —
and return that id. -/
theorem export_import_enqueue_exactly_one (st : BridgeState)
    (pan_user filepath passphrase : String) :
    ((Control.ExportKeys st pan_user filepath passphrase).2.send_queue
      = st.send_queue
        ++ [Message.exportKeysMessage st.id_counter.msg_id pan_user filepath passphrase])
    ∧ (Control.ExportKeys st pan_user filepath passphrase).1 = st.id_counter.msg_id
    ∧ ((Control.ImportKeys st pan_user filepath passphrase).2.send_queue
      = st.send_queue
        ++ [Message.importKeysMessage st.id_counter.msg_id pan_user filepath passphrase])
    ∧ (Control.ImportKeys st pan_user filepath passphrase).1 = st.id_counter.msg_id :=
  ⟨rfl, rfl, rfl, rfl⟩

/-- C3: each invocation of `message_callback` removes at most the head of
the inbound queue, always returns `True` (requesting re-scheduling), and
on an empty queue returns immediately, leaving the whole state unchanged
and emitting nothing. -/
theorem message_callback_at_most_one (g : GlibState) :
    ((GlibT.message_callback g).1.receive_queue = g.receive_queue.drop 1)
    ∧ (GlibT.message_callback g).2.2 = true
    ∧ (g.receive_queue = [] → GlibT.message_callback g = (g, [], true)) := by
  rcases g with ⟨q, store, bridge⟩
  cases q with
  | nil => exact ⟨rfl, rfl, fun _ => rfl⟩
  | cons e rest =>
    refine ⟨rfl, rfl, fun h => ?_⟩
    cases h

/-- Witness for C3 at a concrete empty-queue state. -/
theorem message_callback_at_most_one_witness :
    GlibT.message_callback (GlibT.attrs_post_init [] [])
      = (GlibT.attrs_post_init [] [], [], true) :=
  (message_callback_at_most_one (GlibT.attrs_post_init [] [])).2.2 rfl

/-- C8: every dequeued event — the unrecognized tag included — is consumed
(the queue shrinks to its tail) and the callback returns `True`, so one
bad event never stalls the loop or the events behind it. -/
theorem message_callback_consumes_any_event (g : GlibState) (e : Event)
    (rest : List Event) (h : g.receive_queue = e :: rest) :
    ((GlibT.message_callback g).1.receive_queue = rest)
    ∧ (GlibT.message_callback g).2.2 = true := by
  rcases g with ⟨q, store, bridge⟩
  cases h
  exact ⟨rfl, rfl⟩

/-- Witness for C8 at a concrete unrecognized event. -/
theorem message_callback_consumes_any_event_witness :
    ((GlibT.message_callback (GlibT.attrs_post_init [Event.unknownEvent] [])).1.receive_queue
       = [])
    ∧ (GlibT.message_callback (GlibT.attrs_post_init [Event.unknownEvent] [])).2.2 = true :=
  message_callback_consumes_any_event _ Event.unknownEvent [] rfl

/-- C7: `Verify` and `UnVerify` leave the device cache untouched; the
dispatch of an event changes the cache only for the device-list-changed
event, where `update_devices` replaces it wholesale with the store's
snapshot. -/
theorem verify_unverify_leave_cache (st : BridgeState)
    (pan_user user_id device_id : String) (store : DeviceList) :
    ((Devices.Verify st pan_user user_id device_id).2.device_list = st.device_list)
    ∧ ((Devices.UnVerify st pan_user user_id device_id).2.device_list = st.device_list)
    ∧ (∀ e : Event, e ≠ Event.updateDevicesMessage →
        (GlibT.dispatch st store e).1.device_list = st.device_list)
    ∧ (GlibT.dispatch st store Event.updateDevicesMessage).1.device_list = store := by
  refine ⟨rfl, rfl, fun e he => ?_, rfl⟩
  cases e with
  | updateDevicesMessage => exact absurd rfl he
  | inviteSasSignal p u d t => rfl
  | showSasSignal p u d t em => rfl
  | cancelSasSignal p u d t r c => rfl
  | sasDoneSignal p u d t => rfl
  | daemonResponse i p c m => rfl
  | unknownEvent => rfl

/-- Witness for C7 at a concrete state and a concrete non-refresh event. -/
theorem verify_unverify_leave_cache_witness :
    (GlibT.dispatch aliceState [] Event.unknownEvent).1.device_list
      = aliceState.device_list :=
  (verify_unverify_leave_cache aliceState "alice" "bob" "DEV1" []).2.2.1
    Event.unknownEvent (by simp)

/-- C4: `List` returns the flattening of all cached devices of all users
of the identity, and the empty sequence whenever the identity is absent
from the cache or has no cached devices — there is no error case. -/
theorem devices_list_flattens (st : BridgeState) (pan_user : String) :
    (st.device_list.lookup pan_user = none → Devices.List st pan_user = [])
    ∧ (∀ ds, st.device_list.lookup pan_user = some ds →
        Devices.List st pan_user = ds.flatMap fun user_devices => user_devices.2.map Prod.snd)
    ∧ (st.device_list.lookup pan_user = some [] → Devices.List st pan_user = []) := by
  refine ⟨fun h => ?_, fun ds h => ?_, fun h => ?_⟩
  · simp [Devices.List, h]
  · cases hds : ds.isEmpty
    · simp [Devices.List, h, hds]
    · rw [List.isEmpty_iff] at hds
      subst hds
      simp [Devices.List, h]
  · simp [Devices.List, h]

/-- Witness for C4: on the concrete cache, a missing identity yields `[]`
and a present identity yields the flattened devices. -/
theorem devices_list_flattens_witness :
    Devices.List aliceState "carol" = [] ∧ Devices.List aliceState "alice" = [dev1] := by
  constructor
  · exact (devices_list_flattens aliceState "carol").1 rfl
  · rw [(devices_list_flattens aliceState "alice").2.1 [("bob", [("DEV1", dev1)])] rfl]
    rfl

/-- C9: with identity "alice" caching user "bob" with single device
"DEV1", `ListUserDevices` returns exactly that device for "bob" and the
empty sequence for the absent user "carol". -/
theorem list_user_devices_scenario :
    Devices.ListUserDevices aliceState "alice" "bob" = [dev1]
    ∧ Devices.ListUserDevices aliceState "alice" "carol" = [] :=
  ⟨rfl, rfl⟩

/-- C1 (failing input): a dequeued verification-cancelled event is
consumed by `message_callback` without any outward notification — in
particular no `VerificationCancel` — being emitted, because the dispatch
chain has no branch for it. -/
theorem cancelled_event_emits_nothing :
    GlibT.message_callback (GlibT.attrs_post_init [cancelledEvent] [])
      = (GlibT.attrs_post_init [] [], [], true) :=
  rfl

/-- C10: `parse_log_level` is total on strings, case-insensitive on the
four recognized names, and maps every other string — the parser's own
misspelled default "warnig" included — to the WARNING level. -/
theorem parse_log_level_total_ci :
    (∀ s : String, str_lower s = "info" → parse_log_level s = LogLevel.info)
    ∧ (∀ s : String, str_lower s = "warning" → parse_log_level s = LogLevel.warning)
    ∧ (∀ s : String, str_lower s = "error" → parse_log_level s = LogLevel.error)
    ∧ (∀ s : String, str_lower s = "debug" → parse_log_level s = LogLevel.debug)
    ∧ (∀ s : String, str_lower s ≠ "info" → str_lower s ≠ "warning" →
        str_lower s ≠ "error" → str_lower s ≠ "debug" →
        parse_log_level s = LogLevel.warning)
    ∧ parse_log_level "warnig" = LogLevel.warning := by
  refine ⟨?_, ?_, ?_, ?_, ?_, ?_⟩
  · intro s h
    simp [parse_log_level, h]
  · intro s h
    simp [parse_log_level, h]
  · intro s h
    simp [parse_log_level, h]
  · intro s h
    simp [parse_log_level, h]
  · intro s h1 h2 h3 h4
    simp [parse_log_level, h1, h2, h3, h4]
  · decide

/-- On a successful read, no later non-default section's listen pair is in
the accumulated `listen_set`. -/
lemma read_sections_ok_notmem :
    ∀ (sections : List ConfigSection) (ls : List (String × Nat))
      (servers r : List (String × ServerConfig)),
      read_sections sections ls servers = Except.ok r →
      ∀ s ∈ sections, s.name ≠ "Default" → s.listen_tuple ∉ ls := by
  intro sections
  induction sections with
  | nil => intro ls servers r h s hs; cases hs
  | cons s0 rest ih =>
    intro ls servers r h s hs hname
    simp only [read_sections] at h
    by_cases hdef : s0.name = "Default"
    · rw [if_pos hdef] at h
      rcases List.mem_cons.mp hs with heq | hmem
      · subst heq; exact absurd hdef hname
      · exact ih _ _ _ h s hmem hname
    · rw [if_neg hdef] at h
      cases hhs : s0.homeserver with
      | none => rw [hhs] at h; simp at h
      | some hsv =>
        simp only [hhs] at h
        by_cases hmem0 : (s0.listen_address, s0.listen_port) ∈ ls
        · rw [if_pos hmem0] at h; simp at h
        · rw [if_neg hmem0] at h
          rcases List.mem_cons.mp hs with heq | hmem
          · subst heq
            exact hmem0
          · intro hcontra
            exact ih _ _ _ h s hmem hname (List.mem_cons_of_mem _ hcontra)

/-- On a successful read, the listen pairs of the non-default sections are
pairwise distinct. -/
lemma read_sections_ok_pairwise :
    ∀ (sections : List ConfigSection) (ls : List (String × Nat))
      (servers r : List (String × ServerConfig)),
      read_sections sections ls servers = Except.ok r →
      (sections.filter fun s => s.name != "Default").Pairwise
        (fun a b => a.listen_tuple ≠ b.listen_tuple) := by
  intro sections
  induction sections with
  | nil => intro ls servers r h; simp
  | cons s0 rest ih =>
    intro ls servers r h
    simp only [read_sections] at h
    by_cases hdef : s0.name = "Default"
    · rw [if_pos hdef] at h
      rw [List.filter_cons, if_neg (by simp [hdef])]
      exact ih _ _ _ h
    · rw [if_neg hdef] at h
      cases hhs : s0.homeserver with
      | none => rw [hhs] at h; simp at h
      | some hsv =>
        simp only [hhs] at h
        by_cases hmem0 : (s0.listen_address, s0.listen_port) ∈ ls
        · rw [if_pos hmem0] at h; simp at h
        · rw [if_neg hmem0] at h
          rw [List.filter_cons, if_pos (by simp [hdef])]
          refine List.Pairwise.cons ?_ (ih _ _ _ h)
          intro b hb
          rw [List.mem_filter] at hb
          obtain ⟨hbmem, hbp⟩ := hb
          have hbname : b.name ≠ "Default" := by simpa using hbp
          have hnot := read_sections_ok_notmem rest _ _ r h b hbmem hbname
          intro hcontra
          apply hnot
          rw [← hcontra]
          exact List.mem_cons_self _ _

/-- When the non-default sections' listen pairs are pairwise distinct and
none is already in `listen_set`, the read never fails with the
duplicate-listen error. -/
lemma read_sections_no_dup_error :
    ∀ (sections : List ConfigSection) (ls : List (String × Nat))
      (servers : List (String × ServerConfig)),
      (sections.filter fun s => s.name != "Default").Pairwise
        (fun a b => a.listen_tuple ≠ b.listen_tuple) →
      (∀ s ∈ sections, s.name ≠ "Default" → s.listen_tuple ∉ ls) →
      ∀ n, read_sections sections ls servers
        ≠ Except.error (PanConfigError.duplicateListen n) := by
  intro sections
  induction sections with
  | nil => intro ls servers _ _ n h; simp [read_sections] at h
  | cons s0 rest ih =>
    intro ls servers hpw hnm n h
    simp only [read_sections] at h
    by_cases hdef : s0.name = "Default"
    · rw [if_pos hdef] at h
      rw [List.filter_cons, if_neg (by simp [hdef])] at hpw
      exact ih _ _ hpw (fun s hs hn => hnm s (List.mem_cons_of_mem _ hs) hn) n h
    · rw [if_neg hdef] at h
      cases hhs : s0.homeserver with
      | none => rw [hhs] at h; simp at h
      | some hsv =>
        simp only [hhs] at h
        have hmem0 : (s0.listen_address, s0.listen_port) ∉ ls :=
          hnm s0 (List.mem_cons_self _ _) hdef
        rw [if_neg hmem0] at h
        rw [List.filter_cons, if_pos (by simp [hdef])] at hpw
        rcases List.pairwise_cons.mp hpw with ⟨hhead, htail⟩
        refine ih _ _ htail ?_ n h
        intro s hs hn hcontra
        rcases List.mem_cons.mp hcontra with heq | hmemls
        · have hsf : s ∈ rest.filter fun x => x.name != "Default" := by
            rw [List.mem_filter]
            exact ⟨hs, by simpa using hn⟩
          exact hhead s hsf heq.symm
        · exact hnm s (List.mem_cons_of_mem _ hs) hn hmemls

/-- C6: a configuration in which two non-default sections carry the same
listen address/port pair is rejected with a `PanConfigError` whatever the
order of the sections, and a configuration whose non-default sections have
pairwise distinct listen pairs is never rejected with the duplicate-listen
error. -/
theorem duplicate_listen_rejected :
    (∀ (pre mid post : List ConfigSection) (s1 s2 : ConfigSection),
        s1.name ≠ "Default" → s2.name ≠ "Default" →
        s1.listen_tuple = s2.listen_tuple →
        ∃ e, PanConfig.read (pre ++ s1 :: (mid ++ s2 :: post)) = Except.error e)
    ∧ (∀ sections : List ConfigSection,
        (sections.filter fun s => s.name != "Default").Pairwise
          (fun a b => a.listen_tuple ≠ b.listen_tuple) →
        ∀ n, PanConfig.read sections
          ≠ Except.error (PanConfigError.duplicateListen n)) := by
  constructor
  · intro pre mid post s1 s2 h1 h2 hpair
    cases hr : PanConfig.read (pre ++ s1 :: (mid ++ s2 :: post)) with
    | error e => exact ⟨e, rfl⟩
    | ok r =>
      exfalso
      have hpw := read_sections_ok_pairwise _ _ _ _ hr
      rw [List.filter_append, List.filter_cons, if_pos (by simpa using h1),
        List.filter_append, List.filter_cons, if_pos (by simpa using h2)] at hpw
      rcases (List.pairwise_append.mp hpw) with ⟨_, hpw2, _⟩
      rcases List.pairwise_cons.mp hpw2 with ⟨hhead, _⟩
      exact hhead s2
        (List.mem_append_right _ (List.mem_cons_self _ _)) hpair
  · intro sections hpw n
    exact read_sections_no_dup_error sections [] [] hpw
      (fun s _ _ hc => absurd hc (List.not_mem_nil _)) n

/-- Witness for C6 at a concrete two-section configuration sharing the
listen pair (127.0.0.1, 8009). -/
theorem duplicate_listen_rejected_witness :
    ∃ e, PanConfig.read [sectionAlice, sectionBob] = Except.error e :=
  duplicate_listen_rejected.1 [] [] [] sectionAlice sectionBob
    (by decide) (by decide) rfl

/-- Witness for C10 at concrete mixed-case and unrecognized inputs. -/
theorem parse_log_level_total_ci_witness :
    parse_log_level "INFO" = LogLevel.info
    ∧ parse_log_level "Bogus" = LogLevel.warning :=
  ⟨parse_log_level_total_ci.1 "INFO" (by decide),
   parse_log_level_total_ci.2.2.2.2.1 "Bogus" (by decide) (by decide)
     (by decide) (by decide)⟩

end Pantalaimon

